import Mathlib

/-
Verification of the github-status service class (src/unnamed/part_000) of
the vscode-github-status repository.  The class owns the activity tracker
(lastActivity, isIdle, idleTimeout), the work session (start) and the
scheduled push loop (updateStatus / setIdle), plus the emoji catalog cache
(loadEmojis / getCachedEmojis / cacheEmojis).  Timestamps are modelled as
natural numbers of milliseconds since some origin; moment diffs in minutes
become truncated division by 60000.
-/

namespace GithubStatus

/-- EmojiCacheItem record of part_000 lines 14-17: a name and the icon URL. -/
structure EmojiCacheItem where
  name : String
  url : String
deriving DecidableEq, Repr

/-- The two persistent globalState slots used by the cache
(EMOJI_CACHE_KEY and EMOJI_CACHE_TIMESTAMP_KEY, part_000 lines 20-21). -/
structure CacheState where
  cachedEmojis : Option (List EmojiCacheItem)
  cacheTimestamp : Option Nat
deriving DecidableEq, Repr

/-- Outcome of the remote fetch of https-api-github-com-emojis
(part_000 line 126): a successful JSON mapping, a non-ok HTTP response,
a rejected fetch (network error), or a response whose JSON parse throws. -/
inductive FetchOutcome where
  | success (mapping : List (String × String))
  | httpNotOk
  | networkError
  | malformedResponse
deriving DecidableEq, Repr

/-- Result of one loadEmojis call: the fields the call leaves in
the service (the name-to-url mapping and the cache list), whether the
remote directory was invoked, and the persistent store afterwards. -/
structure LoadResult where
  emojis : List (String × String)
  emojiCache : List EmojiCacheItem
  fetched : Bool
  store : CacheState
deriving DecidableEq, Repr

/-- CACHE_EXPIRY_HOURS constant, part_000 line 22. -/
def CACHE_EXPIRY_HOURS : Nat := 24

/-- getCachedEmojis, part_000 lines 158-183.  Returns the stored list when
a context is present, both globalState slots hold truthy values (a stored
array is always truthy, a stored timestamp of 0 is falsy in JS), and the
cache age now - cacheTimestamp does not exceed 24 hours in milliseconds. -/
def getCachedEmojis (hasContext : Bool) (st : CacheState) (now : Nat) :
    Option (List EmojiCacheItem) :=
  if !hasContext then none
  else
    match st.cachedEmojis, st.cacheTimestamp with
    | some es, some ts =>
        if ts = 0 then none
        else
          let maxAge := CACHE_EXPIRY_HOURS * 60 * 60 * 1000
          if now - ts > maxAge then none else some es
    | some _, none => none
    | none, _ => none

/-- The guard of part_000 line 115: the cached list is used only when
getCachedEmojis produced one and it is non-empty. -/
def usableCache (hasContext : Bool) (st : CacheState) (now : Nat) :
    Option (List EmojiCacheItem) :=
  match getCachedEmojis hasContext st now with
  | some es => if es.length > 0 then some es else none
  | none => none

/-- The hard-coded fallback mapping of part_000 lines 142-149. -/
def fallbackEmojis : List (String × String) :=
  [("computer", "https://github.githubassets.com/images/icons/emoji/unicode/1f4bb.png?v8"),
   ("rocket", "https://github.githubassets.com/images/icons/emoji/unicode/1f680.png?v8"),
   ("zap", "https://github.githubassets.com/images/icons/emoji/unicode/26a1.png?v8"),
   ("coffee", "https://github.githubassets.com/images/icons/emoji/unicode/2615.png?v8"),
   ("fire", "https://github.githubassets.com/images/icons/emoji/unicode/1f525.png?v8"),
   ("house", "https://github.githubassets.com/images/icons/emoji/unicode/1f3e0.png?v8")]

/-- Conversion of a cache list back to the name-to-url mapping,
part_000 lines 118-121. -/
def emojiPairs (es : List EmojiCacheItem) : List (String × String) :=
  es.map (fun e => (e.name, e.url))

/-- Conversion of a mapping into cache items, part_000 lines 131-134. -/
def emojiItems (m : List (String × String)) : List EmojiCacheItem :=
  m.map (fun p => { name := p.1, url := p.2 })

/-- cacheEmojis, part_000 lines 185-194: store the items and a fresh
timestamp into the two globalState slots. -/
def cacheEmojis (emojis : List EmojiCacheItem) (now : Nat) : CacheState :=
  { cachedEmojis := some emojis, cacheTimestamp := some now }

/-- The fetch expression of part_000 line 126 seen through Promise
semantics: a rejected fetch or a throwing json parse is an error, a
non-ok response yields no mapping, a parsed body yields the mapping. -/
def fetchEmojis (f : FetchOutcome) : Except String (Option (List (String × String))) :=
  match f with
  | .success m => Except.ok (some m)
  | .httpNotOk => Except.ok none
  | .networkError => Except.error "fetch rejected"
  | .malformedResponse => Except.error "json parse failed"

/-- The fetch-and-cache path of loadEmojis (part_000 lines 125-155)
after the cached-copy branch declined: on a parsed mapping adopt and
persist it, on a non-ok response leave every field as it was, and in the
catch clause adopt the hard-coded fallback without touching the store. -/
def fetchFresh (st : CacheState) (now : Nat) (f : FetchOutcome)
    (priorEmojis : List (String × String)) (priorCache : List EmojiCacheItem) :
    LoadResult :=
  match fetchEmojis f with
  | Except.ok (some m) =>
      { emojis := m, emojiCache := emojiItems m, fetched := true,
        store := cacheEmojis (emojiItems m) now }
  | Except.ok none =>
      { emojis := priorEmojis, emojiCache := priorCache, fetched := true, store := st }
  | Except.error _ =>
      { emojis := fallbackEmojis, emojiCache := emojiItems fallbackEmojis,
        fetched := true, store := st }

/-- loadEmojis, part_000 lines 111-156.  The whole body sits in one
try-catch whose catch clause installs the fallback set, so the async
function always resolves: every arm returns Except.ok. -/
def loadEmojis (hasContext : Bool) (st : CacheState) (now : Nat) (f : FetchOutcome)
    (priorEmojis : List (String × String)) (priorCache : List EmojiCacheItem) :
    Except String LoadResult :=
  match usableCache hasContext st now with
  | some es =>
      Except.ok { emojis := emojiPairs es, emojiCache := es, fetched := false, store := st }
  | none => Except.ok (fetchFresh st now f priorEmojis priorCache)

/-- The githubstatus configuration values the service reads at push time
(emoji, emojiDefault, default).  A value is None when unset; JS truthiness
also discards an empty string, see jsString. -/
structure Config where
  emoji : Option String
  emojiDefault : Option String
  defaultMessage : Option String
deriving DecidableEq, Repr

/-- JS truthiness of an optional string: undefined and the empty string
are both falsy. -/
def jsString (v : Option String) : Option String :=
  match v with
  | some s => if s = "" then none else some s
  | none => none

/-- The mutable service fields of part_000 lines 38-48 that the status
loop reads and writes: expires (interval minutes), idleTimeout (minutes),
start (work-session origin), currentLanguage, lastActivity, isIdle. -/
structure ServiceState where
  expires : Nat
  idleTimeout : Nat
  start : Option Nat
  currentLanguage : Option String
  lastActivity : Nat
  isIdle : Bool
deriving DecidableEq, Repr

/-- UserStatus record sent to the changeUserStatus mutation,
part_000 lines 403-408. -/
structure UserStatus where
  emoji : Option String
  expiresAt : Option Nat
  limitedAvailability : Option Bool := none
  message : Option String
deriving DecidableEq, Repr

/-- What one updateStatus call produces: the service state afterwards,
the status pushed to the sink (none when the call pushed nothing), and
whether a setInterval timer was created (the non-null return value). -/
structure UpdateResult where
  state : ServiceState
  push : Option UserStatus
  timer : Bool
deriving DecidableEq, Repr

/-- OFFSET constant, part_000 line 19. -/
def OFFSET : Nat := 10000

/-- The idle classification of part_000 lines 307-308: the moment diff in
whole minutes between now and the last activity reaches the threshold. -/
def checkIdle (idleTimeout lastActivity now : Nat) : Bool :=
  decide (idleTimeout ≤ (now - lastActivity) / 60000)

/-- Whole minutes elapsed since the work-session origin,
part_000 line 326. -/
def elapsedMinutes (start now : Nat) : Nat :=
  (now - start) / 60000

/-- The plural suffix used throughout the duration text: an s exactly
when the count exceeds 1 (part_000 lines 327 and 332-334). -/
def pluralS (n : Nat) : String :=
  if n > 1 then "s" else ""

/-- The duration text of part_000 lines 326-335: minutes only, overridden
by an hours-and-minutes form when the minute count exceeds 60. -/
def formatDuration (n : Nat) : String :=
  let minutesOnly := "(" ++ toString n ++ " minute" ++ pluralS n ++ ")"
  if n > 60 then
    let h := n / 60
    let m := n % 60
    "(" ++ toString h ++ " hour" ++ pluralS h ++ " " ++ toString m ++ " minute" ++ pluralS m ++ ")"
  else minutesOnly

/-- The emoji chosen at the top of updateStatus, part_000 lines 286-300:
the configured emoji when truthy, else the quick-pick selection when the
user made one, else the literal computer fallback.  (A selection is also
written back to the external configuration store, which is outside
ServiceState.) -/
def resolveEmoji (cfg : Config) (selected : Option String) : String :=
  match jsString cfg.emoji with
  | some e => e
  | none =>
      match jsString selected with
      | some e => e
      | none => "computer"

/-- The active status message of part_000 line 342: the workspace label,
an in-language part when a language was observed, and a for-duration part
when the duration text is non-empty. -/
def activeMessage (s : ServiceState) (workspace diff : String) : String :=
  "Working on " ++ workspace ++
    (match jsString s.currentLanguage with
     | some l => " in " ++ l
     | none => "") ++
    (if diff.length > 0 then " for " ++ diff else "")

/-- setIdle, part_000 lines 355-371: the idle status pushed on the
active-to-idle transition.  The emoji is the configured emojiDefault when
truthy, else zzz; the message is fixed; the expiry is one hour from now. -/
def setIdle (cfg : Config) (now : Nat) : UserStatus :=
  let emoji :=
    match jsString cfg.emojiDefault with
    | some e => e
    | none => "zzz"
  { emoji := some (":" ++ emoji ++ ":"),
    message := some "Idle - Away from keyboard",
    expiresAt := some (now + 60 * 60 * 1000) }

/-- updateStatus, part_000 lines 285-353.  Resolve the emoji; when the
idle threshold is reached and the flag is still clear, set the flag, push
the idle status and return null; when the flag is already set, do nothing
and return null; otherwise push an active status, recording the session
origin and creating the setInterval timer only when no origin exists. -/
def updateStatus (cfg : Config) (selected : Option String) (s : ServiceState)
    (workspace : String) (now : Nat) : UpdateResult :=
  let emoji := resolveEmoji cfg selected
  if checkIdle s.idleTimeout s.lastActivity now && !s.isIdle then
    { state := { s with isIdle := true }, push := some (setIdle cfg now), timer := false }
  else if s.isIdle then
    { state := s, push := none, timer := false }
  else
    match s.start with
    | none =>
        let s2 := { s with start := some now }
        { state := s2,
          push := some
            { emoji := some (":" ++ emoji ++ ":"),
              expiresAt := some (OFFSET + now + s.expires * 60000),
              message := some (activeMessage s2 workspace "") },
          timer := true }
    | some t0 =>
        let diff := formatDuration (elapsedMinutes t0 now)
        { state := s,
          push := some
            { emoji := some (":" ++ emoji ++ ":"),
              expiresAt := some (OFFSET + now + s.expires * 60000),
              message := some (activeMessage s workspace diff) },
          timer := false }

/-- The changeUserStatus remote mutation as an injected capability that
may fail. -/
def sinkCall (sinkFails : Bool) : Except String Unit :=
  if sinkFails then Except.error "changeUserStatus mutation failed"
  else Except.ok ()

/-- updateStatus together with the sink call and its try-catch-finally
(part_000 lines 346-352, and lines 366-370 inside setIdle): whatever the
sink does, the catch logs, and the finally clause returns the interval
computed before the call, so the caller always receives the state and
timer determined before the push. -/
def updateStatusWithSink (cfg : Config) (selected : Option String) (s : ServiceState)
    (workspace : String) (now : Nat) (sinkFails : Bool) :
    Except String (ServiceState × Bool) :=
  let r := updateStatus cfg selected s workspace now
  match r.push with
  | none => Except.ok (r.state, r.timer)
  | some _ =>
      match sinkCall sinkFails with
      | Except.ok _ => Except.ok (r.state, r.timer)
      | Except.error _ => Except.ok (r.state, r.timer)

/-- setDefault, part_000 lines 379-400: the default status pushed on
deactivation.  Nothing is pushed when no default message is configured
(the truthiness guard of line 383); otherwise the message is the
configured text, the emoji is the configured emojiDefault when truthy and
absent otherwise, and no expiry is set. -/
def setDefault (cfg : Config) : Option UserStatus :=
  match jsString cfg.defaultMessage with
  | none => none
  | some message =>
      let emoji :=
        match jsString cfg.emojiDefault with
        | some e => some (":" ++ e ++ ":")
        | none => none
      some { emoji := emoji, message := some message, expiresAt := none }

/-- setDefault together with its sink call and try-catch (part_000 lines
395-399): the method reads no service field and writes none, its catch
logs and swallows, so the call always resolves and hands back the state
fields exactly as they were, whatever the sink did. -/
def setDefaultWithSink (cfg : Config) (s : ServiceState) (sinkFails : Bool) :
    Except String ServiceState :=
  match setDefault cfg with
  | none => Except.ok s
  | some _ =>
      match sinkCall sinkFails with
      | Except.ok _ => Except.ok s
      | Except.error _ => Except.ok s

/-- onActivity, part_000 lines 100-109: stamp the activity time; when the
service was idle, clear the flag and, when a workspace name exists, run
updateStatus at once.  Returns the state, the push made by that nested
call, and whether it created a timer. -/
def onActivity (cfg : Config) (selected : Option String) (s : ServiceState)
    (workspaceName : Option String) (now : Nat) :
    ServiceState × Option UserStatus × Bool :=
  let s1 := { s with lastActivity := now }
  if s1.isIdle then
    let s2 := { s1 with isIdle := false }
    match workspaceName with
    | some ws =>
        let r := updateStatus cfg selected s2 ws now
        (r.state, r.push, r.timer)
    | none => (s2, none, false)
  else (s1, none, false)

/-- resetActivity, part_000 lines 373-377: stamp the activity time, clear
the idle flag and clear the work-session origin. -/
def resetActivity (s : ServiceState) (now : Nat) : ServiceState :=
  { s with lastActivity := now, isIdle := false, start := none }

/-- Duration rendering as the spec sentence words it, for comparison with
formatDuration: the minutes form exactly when the count is strictly below
60, otherwise hours and minutes with H the count div 60 and M the count
mod 60, with the plural s whenever the respective count exceeds 1. -/
def claimDurationLt60 (n : Nat) : String :=
  if n < 60 then "(" ++ toString n ++ " minute" ++ pluralS n ++ ")"
  else
    "(" ++ toString (n / 60) ++ " hour" ++ pluralS (n / 60) ++ " " ++
      toString (n % 60) ++ " minute" ++ pluralS (n % 60) ++ ")"

/-- The amended rendering rule: as claimDurationLt60 but with the minutes
form up to and including a count of 60, matching the strict comparison
with 60 in part_000 line 328. -/
def claimDurationLe60 (n : Nat) : String :=
  if n ≤ 60 then "(" ++ toString n ++ " minute" ++ pluralS n ++ ")"
  else
    "(" ++ toString (n / 60) ++ " hour" ++ pluralS (n / 60) ++ " " ++
      toString (n % 60) ++ " minute" ++ pluralS (n % 60) ++ ")"

/-- A configuration with a configured status emoji and nothing else. -/
def cfgComputer : Config :=
  { emoji := some "computer", emojiDefault := none, defaultMessage := none }

/-- A configuration with nothing set. -/
def cfgEmpty : Config :=
  { emoji := none, emojiDefault := none, defaultMessage := none }

/-- Fresh service state at the default configuration: interval 1 minute,
idle timeout 15 minutes, no session, no language, last activity at the
origin, not idle. -/
def demoStart : ServiceState :=
  { expires := 1, idleTimeout := 15, start := none, currentLanguage := none,
    lastActivity := 0, isIdle := false }

/-- An idle service whose work-session origin still holds the stale
pre-idle timestamp 0. -/
def staleIdleState : ServiceState :=
  { expires := 1, idleTimeout := 15, start := some 0, currentLanguage := none,
    lastActivity := 0, isIdle := true }

/-- An active service with a running session that started at 0. -/
def activeGapState : ServiceState :=
  { expires := 1, idleTimeout := 15, start := some 0, currentLanguage := none,
    lastActivity := 0, isIdle := false }

theorem updateStatus_when_idle (cfg : Config) (sel : Option String) (s : ServiceState)
    (ws : String) (now : Nat) (h : s.isIdle = true) :
    updateStatus cfg sel s ws now = { state := s, push := none, timer := false } := by
  simp [updateStatus, h]

/-- C4: the idle classification performed at a scheduled push is true
exactly when the gap since the last recorded activity reaches the
threshold: for a threshold of t minutes and a gap of g milliseconds,
checkIdle holds iff g covers t whole minutes, and the exact boundary gap
of t minutes classifies as idle. -/
theorem c4_checkIdle_iff_gap_reaches_threshold (t last g : Nat) :
    (checkIdle t last (last + g) = true ↔ t * 60000 ≤ g) ∧
    checkIdle t last (last + t * 60000) = true := by
  constructor
  · simp only [checkIdle, Nat.add_sub_cancel_left, decide_eq_true_eq]
    exact Nat.le_div_iff_mul_le (by norm_num)
  · simp only [checkIdle, Nat.add_sub_cancel_left, decide_eq_true_eq]
    exact (Nat.le_div_iff_mul_le (by norm_num)).mpr (le_refl _)

/-- C10: a call to updateStatus made while the idle flag is already set
returns null, pushes nothing to the sink and changes no state field, so
after the one-time idle push every further scheduled tick is a no-op
until the flag is cleared. -/
theorem c10_updateStatus_noop_while_idle (cfg : Config) (sel : Option String)
    (s : ServiceState) (ws : String) (now : Nat) (h : s.isIdle = true) :
    updateStatus cfg sel s ws now = { state := s, push := none, timer := false } :=
  updateStatus_when_idle cfg sel s ws now h

/-- C10 witness: the no-op at a concrete idle state. -/
theorem c10_updateStatus_noop_while_idle_witness :
    staleIdleState.isIdle = true ∧
    updateStatus cfgComputer none staleIdleState "demo" 1000000 =
      { state := staleIdleState, push := none, timer := false } :=
  ⟨rfl, c10_updateStatus_noop_while_idle cfgComputer none staleIdleState "demo" 1000000 rfl⟩

/-- C5: within one continuous active run (idle flag clear, a session
origin recorded, idle threshold not reached), a scheduled push after the
first leaves the whole state, in particular the session origin,
unchanged, and the elapsed-minutes value is non-decreasing in time. -/
theorem c5_active_run_preserves_start (cfg : Config) (sel : Option String)
    (s : ServiceState) (ws : String) (now t0 n1 n2 : Nat)
    (hIdleFlag : s.isIdle = false)
    (hStart : s.start = some t0)
    (hNotIdle : checkIdle s.idleTimeout s.lastActivity now = false)
    (hle : n1 ≤ n2) :
    (updateStatus cfg sel s ws now).state = s ∧
    (updateStatus cfg sel s ws now).state.start = some t0 ∧
    elapsedMinutes t0 n1 ≤ elapsedMinutes t0 n2 := by
  refine ⟨?_, ?_, ?_⟩
  · simp [updateStatus, hIdleFlag, hNotIdle, hStart]
  · simp [updateStatus, hIdleFlag, hNotIdle, hStart]
  · exact Nat.div_le_div_right (Nat.sub_le_sub_right hle t0)

/-- C5 witness: a concrete mid-run push at two minutes leaves the state
untouched and elapsed minutes are monotone between two later instants. -/
theorem c5_active_run_preserves_start_witness :
    (updateStatus cfgComputer none activeGapState "demo" 120000).state = activeGapState ∧
    (updateStatus cfgComputer none activeGapState "demo" 120000).state.start = some 0 ∧
    elapsedMinutes 0 120000 ≤ elapsedMinutes 0 180000 :=
  c5_active_run_preserves_start cfgComputer none activeGapState "demo" 120000 0 120000 180000
    rfl rfl (by decide) (by decide)

/-- C7: for every push (active or idle through updateStatus, default
through setDefault), a failure of the status sink is swallowed by the
enclosing try-catch: each call resolves (never rejects to its caller),
the resulting state and the returned timer are exactly those determined
before the sink call, independent of the sink outcome, and the default
push likewise hands back every state field untouched. -/
theorem c7_sink_failure_swallowed (cfg : Config) (sel : Option String) (s : ServiceState)
    (ws : String) (now : Nat) (sinkFails : Bool) :
    updateStatusWithSink cfg sel s ws now sinkFails =
      Except.ok ((updateStatus cfg sel s ws now).state,
                 (updateStatus cfg sel s ws now).timer) ∧
    setDefaultWithSink cfg s sinkFails = Except.ok s := by
  constructor
  · unfold updateStatusWithSink
    cases hp : (updateStatus cfg sel s ws now).push <;> cases sinkFails <;> simp [sinkCall, hp]
  · unfold setDefaultWithSink
    cases hd : setDefault cfg <;> cases sinkFails <;> simp [sinkCall, hd]

/-- C6 counterexample: at exactly 60 minutes the code renders the
minutes-only form, not the hours form the claim prescribes for counts
not below 60. -/
theorem c6_boundary_counterexample :
    formatDuration 60 = "(60 minutes)" ∧
    claimDurationLt60 60 = "(1 hour 0 minute)" ∧
    formatDuration 60 ≠ claimDurationLt60 60 :=
  ⟨rfl, rfl, by decide⟩

/-- C6 (amended): for every count N of at least 1, the duration text is
the minutes form when N is at most 60 and the hours-and-minutes form with
H = N div 60 and M = N mod 60 when N exceeds 60, the plural s appended
exactly when the respective count exceeds 1. -/
theorem c6_duration_rendering (n : Nat) (h : 1 ≤ n) :
    formatDuration n = claimDurationLe60 n := by
  by_cases h60 : n ≤ 60
  · have hgt : ¬ n > 60 := by omega
    simp [formatDuration, claimDurationLe60, hgt, h60]
  · have hgt : n > 60 := by omega
    simp [formatDuration, claimDurationLe60, hgt, h60]

/-- C6 witness: the rendering agreement at the concrete count 61. -/
theorem c6_duration_rendering_witness :
    (1 ≤ 61) ∧ formatDuration 61 = claimDurationLe60 61 :=
  ⟨by decide, c6_duration_rendering 61 (by decide)⟩

/-- C1: at the failing input (idle, stale session origin 0, activity
resume two hours later) onActivity clears the idle flag but leaves the
work-session origin at its stale pre-idle value, so the push it triggers
reports two hours of elapsed time instead of restarting from zero; only
the separate resetActivity path clears the origin. -/
theorem c1_onActivity_keeps_stale_start :
    (onActivity cfgComputer none staleIdleState (some "demo") 7200000).1.isIdle = false ∧
    (onActivity cfgComputer none staleIdleState (some "demo") 7200000).1.start = some 0 ∧
    (onActivity cfgComputer none staleIdleState (some "demo") 7200000).2.1 =
      some { emoji := some ":computer:", expiresAt := some 7270000,
             message := some "Working on demo for (2 hours 0 minute)" } ∧
    resetActivity staleIdleState 7200000 =
      { expires := 1, idleTimeout := 15, start := none, currentLanguage := none,
        lastActivity := 7200000, isIdle := false } :=
  ⟨rfl, rfl, rfl, rfl⟩

/-- C2: when a scheduled push finds the idle threshold reached and the
idle flag clear, with no emojiDefault configured, it pushes exactly the
idle status (zzz emoji, fixed message, expiry one hour from now), sets
the flag, creates no timer, and in the state it leaves behind any later
updateStatus call pushes nothing and creates no timer. -/
theorem c2_idle_transition (cfg : Config) (sel sel2 : Option String)
    (s : ServiceState) (ws ws2 : String) (now now2 : Nat)
    (hIdleFlag : s.isIdle = false)
    (hGap : checkIdle s.idleTimeout s.lastActivity now = true)
    (hNoDefault : cfg.emojiDefault = none) :
    updateStatus cfg sel s ws now =
      { state := { s with isIdle := true },
        push := some
          { emoji := some ":zzz:",
            message := some "Idle - Away from keyboard",
            expiresAt := some (now + 60 * 60 * 1000) },
        timer := false } ∧
    updateStatus cfg sel2 { s with isIdle := true } ws2 now2 =
      { state := { s with isIdle := true }, push := none, timer := false } := by
  constructor
  · simp [updateStatus, hIdleFlag, hGap, setIdle, jsString, hNoDefault]
    rfl
  · exact updateStatus_when_idle cfg sel2 { s with isIdle := true } ws2 now2 rfl

/-- C2 witness: the idle transition at minute 16 with threshold 15 and an
unconfigured emojiDefault, followed by a no-op tick at a later instant. -/
theorem c2_idle_transition_witness :
    updateStatus cfgEmpty none activeGapState "demo" 960000 =
      { state := { activeGapState with isIdle := true },
        push := some
          { emoji := some ":zzz:",
            message := some "Idle - Away from keyboard",
            expiresAt := some (960000 + 60 * 60 * 1000) },
        timer := false } ∧
    updateStatus cfgEmpty none { activeGapState with isIdle := true } "demo" 1020000 =
      { state := { activeGapState with isIdle := true }, push := none, timer := false } :=
  c2_idle_transition cfgEmpty none none activeGapState "demo" "demo" 960000 1020000
    rfl (by decide) rfl

/-- C3 counterexample: in the demo scenario the second push at two
minutes carries the message with the for-connective, which differs from
the message the claim prescribes. -/
theorem c3_second_push_counterexample :
    (updateStatus cfgComputer none
        (updateStatus cfgComputer none demoStart "demo" 0).state "demo" 120000).push =
      some { emoji := some ":computer:", expiresAt := some 190000,
             message := some "Working on demo for (2 minutes)" } ∧
    ("Working on demo for (2 minutes)" : String) ≠ "Working on demo (2 minutes)" :=
  ⟨rfl, by decide⟩

/-- C3 (amended): workspace demo, no language, no idle: the first push at
t = 0 carries exactly the message Working on demo, and the second
scheduled push at t = 2 minutes exactly Working on demo for (2 minutes). -/
theorem c3_demo_two_pushes :
    (updateStatus cfgComputer none demoStart "demo" 0).push =
      some { emoji := some ":computer:", expiresAt := some 70000,
             message := some "Working on demo" } ∧
    (updateStatus cfgComputer none demoStart "demo" 0).timer = true ∧
    (updateStatus cfgComputer none
        (updateStatus cfgComputer none demoStart "demo" 0).state "demo" 120000).push =
      some { emoji := some ":computer:", expiresAt := some 190000,
             message := some "Working on demo for (2 minutes)" } :=
  ⟨rfl, rfl, rfl⟩

/-- C8: for a populated cache record (non-empty entries, a truthy stored
timestamp ts), the catalog load returns the cached entries without
invoking the remote directory exactly when now - ts is within the 24-hour
window in milliseconds; moreover a load that fetched and persisted a
non-empty mapping at t1 is followed, at any t2 within 24 hours, by a load
returning those same entries without a second fetch. -/
theorem c8_cache_window (st : CacheState) (es : List EmojiCacheItem) (ts now : Nat)
    (f f2 : FetchOutcome) (pe pe2 : List (String × String)) (pc pc2 : List EmojiCacheItem)
    (st0 : CacheState) (m : List (String × String)) (t1 t2 : Nat)
    (hE : st.cachedEmojis = some es) (hT : st.cacheTimestamp = some ts)
    (hNe : es ≠ []) (hTs : ts ≠ 0)
    (hMiss : usableCache true st0 t1 = none) (hM : m ≠ []) (hT1 : t1 ≠ 0)
    (hWin : t2 - t1 ≤ 86400000) :
    (loadEmojis true st now f pe pc =
        Except.ok { emojis := emojiPairs es, emojiCache := es, fetched := false, store := st }
      ↔ now - ts ≤ 86400000) ∧
    loadEmojis true st0 t1 (.success m) pe pc =
      Except.ok { emojis := m, emojiCache := emojiItems m, fetched := true,
                  store := cacheEmojis (emojiItems m) t1 } ∧
    loadEmojis true (cacheEmojis (emojiItems m) t1) t2 f2 pe2 pc2 =
      Except.ok { emojis := emojiPairs (emojiItems m), emojiCache := emojiItems m,
                  fetched := false, store := cacheEmojis (emojiItems m) t1 } := by
  have hlen : 0 < es.length := List.length_pos.mpr hNe
  refine ⟨?_, ?_, ?_⟩
  · by_cases hAge : now - ts ≤ 86400000
    · have hnot : ¬ (now - ts > 24 * 60 * 60 * 1000) := by omega
      have hu : usableCache true st now = some es := by
        simp [usableCache, getCachedEmojis, CACHE_EXPIRY_HOURS, hE, hT, hTs, hnot, hlen]
      simp [loadEmojis, hu, hAge]
    · have hgt : now - ts > 24 * 60 * 60 * 1000 := by omega
      have hu : usableCache true st now = none := by
        simp [usableCache, getCachedEmojis, CACHE_EXPIRY_HOURS, hE, hT, hTs, hgt]
      simp only [loadEmojis, hu]
      constructor
      · intro hEq
        exfalso
        cases f <;> simp [fetchFresh, fetchEmojis] at hEq
      · intro hLe
        exact absurd hLe hAge
  · simp [loadEmojis, hMiss, fetchFresh, fetchEmojis]
  · have hlen2 : 0 < (emojiItems m).length := by
      simpa [emojiItems] using List.length_pos.mpr hM
    have hnot2 : ¬ (t2 - t1 > 24 * 60 * 60 * 1000) := by omega
    have hu2 : usableCache true (cacheEmojis (emojiItems m) t1) t2 = some (emojiItems m) := by
      simp [usableCache, getCachedEmojis, CACHE_EXPIRY_HOURS, cacheEmojis, hT1, hnot2, hlen2]
    simp [loadEmojis, hu2]

/-- C8 witness: a one-entry record fetched at 5 and read at 10 is served
from cache; a miss at 1 fetches and persists, and a second load at 2
is served from the new cache without a fetch. -/
theorem c8_cache_window_witness :
    (loadEmojis true { cachedEmojis := some [{ name := "computer", url := "u" }],
                       cacheTimestamp := some 5 } 10 FetchOutcome.networkError [] [] =
        Except.ok { emojis := emojiPairs [{ name := "computer", url := "u" }],
                    emojiCache := [{ name := "computer", url := "u" }], fetched := false,
                    store := { cachedEmojis := some [{ name := "computer", url := "u" }],
                               cacheTimestamp := some 5 } }
      ↔ 10 - 5 ≤ 86400000) ∧
    loadEmojis true { cachedEmojis := none, cacheTimestamp := none } 1
        (FetchOutcome.success [("rocket", "v")]) [] [] =
      Except.ok { emojis := [("rocket", "v")], emojiCache := emojiItems [("rocket", "v")],
                  fetched := true, store := cacheEmojis (emojiItems [("rocket", "v")]) 1 } ∧
    loadEmojis true (cacheEmojis (emojiItems [("rocket", "v")]) 1) 2
        FetchOutcome.httpNotOk [] [] =
      Except.ok { emojis := emojiPairs (emojiItems [("rocket", "v")]),
                  emojiCache := emojiItems [("rocket", "v")], fetched := false,
                  store := cacheEmojis (emojiItems [("rocket", "v")]) 1 } :=
  c8_cache_window { cachedEmojis := some [{ name := "computer", url := "u" }],
                    cacheTimestamp := some 5 }
    [{ name := "computer", url := "u" }] 5 10 FetchOutcome.networkError FetchOutcome.httpNotOk
    [] [] [] [] { cachedEmojis := none, cacheTimestamp := none } [("rocket", "v")] 1 2
    rfl rfl (by decide) (by decide) rfl (by decide) (by decide) (by decide)

/-- C9: the catalog load always resolves, and when the cache could not
serve and the fetch fails (rejected fetch or malformed body) the
resulting catalog is exactly the built-in fallback set, whose names are
computer, rocket, zap, coffee, fire and house. -/
theorem c9_fetch_failure_fallback (hasContext : Bool) (st : CacheState) (now : Nat)
    (f : FetchOutcome) (pe : List (String × String)) (pc : List EmojiCacheItem) :
    (∃ r, loadEmojis hasContext st now f pe pc = Except.ok r) ∧
    (usableCache hasContext st now = none →
      (f = FetchOutcome.networkError ∨ f = FetchOutcome.malformedResponse) →
      loadEmojis hasContext st now f pe pc =
        Except.ok { emojis := fallbackEmojis, emojiCache := emojiItems fallbackEmojis,
                    fetched := true, store := st }) ∧
    fallbackEmojis.map Prod.fst = ["computer", "rocket", "zap", "coffee", "fire", "house"] := by
  refine ⟨?_, ?_, by decide⟩
  · unfold loadEmojis
    cases usableCache hasContext st now <;> exact ⟨_, rfl⟩
  · intro hMiss hf
    rcases hf with hf | hf <;> simp [loadEmojis, hMiss, fetchFresh, fetchEmojis, hf]

/-- C9 witness: a load with an empty store and a rejected fetch resolves
with exactly the fallback set. -/
theorem c9_fetch_failure_fallback_witness :
    loadEmojis true { cachedEmojis := none, cacheTimestamp := none } 0
        FetchOutcome.networkError [] [] =
      Except.ok { emojis := fallbackEmojis, emojiCache := emojiItems fallbackEmojis,
                  fetched := true,
                  store := { cachedEmojis := none, cacheTimestamp := none } } ∧
    fallbackEmojis.map Prod.fst = ["computer", "rocket", "zap", "coffee", "fire", "house"] :=
  ⟨(c9_fetch_failure_fallback true { cachedEmojis := none, cacheTimestamp := none } 0
      FetchOutcome.networkError [] []).2.1 rfl (Or.inl rfl),
   (c9_fetch_failure_fallback true { cachedEmojis := none, cacheTimestamp := none } 0
      FetchOutcome.networkError [] []).2.2⟩

end GithubStatus
